import Mathlib

/-!
Shallow embedding of `src/excelPython/importExcel.py` (the `Column` type-and-format
inference engine), together with theorems checking the claims of the natural-language
specification against it.

Modelling conventions:
- Python scalar cell values are modelled by `PyObj`: `None`, `str`, `int`, `float`
  (modelled as exact rationals; no claim depends on binary rounding), and native
  `datetime.date` / `datetime.time` / `datetime.datetime` objects.
- Exceptions are modelled by `PyError`; stateful methods return
  `Column × Option PyError`, keeping the mutations performed before the raise,
  exactly as a Python object keeps them when a method raises.
- The file targets Python 2 semantics, which is what the source is written in
  (`reader.next()`, `worksheet.rows[0]` subscripting, statement-form
  `print(fmt) % args` which formats the string before printing).
- String routines are implemented over `List Char` so that concrete runs reduce
  in the kernel; Python `str` methods are reproduced (strip, lower, split, len).
-/

/-- A Python float, modelled as the exact decimal `num / 10 ^ scale`.  The engine
only ever asks whether the fractional part is nonzero and truncates toward zero,
so exact decimals are a faithful stand-in and reduce in the kernel (no claim
depends on binary rounding). -/
structure PyFloat where
  num : Int
  scale : Nat
  deriving DecidableEq, Repr

/-- The scalar Python values that flow through the engine: raw cells, buffered raw
strings, and converted outputs. -/
inductive PyObj where
  | none
  | str (s : String)
  | int (n : Int)
  | float (q : PyFloat)
  | date (y mo d : Int)
  | time (h mi s us : Int)
  | datetime (y mo d h mi s us : Int)
  deriving DecidableEq, Repr

/-- The arguments of the two diagnostic prints in `processValue` (source lines
138-139 and 145): the temporal branch formats header, value and pattern; the
numeric/string branch formats only header and value. -/
inductive ConvArgs where
  | withPattern (header : Option String) (value : PyObj) (pattern : Option String)
  | noPattern (header : Option String) (value : PyObj)
  deriving DecidableEq, Repr

/-- Python exceptions raised by the engine.  `convFailure` carries exactly the
format arguments of the diagnostic print issued just before the re-raise in
`processValue`; `unresolvedFormat` is the bare `Exception` raised by
`fixUpRawValues`. -/
inductive PyError where
  | indexError
  | typeError
  | attributeError
  | valueError
  | convFailure (args : ConvArgs)
  | unresolvedFormat
  deriving DecidableEq, Repr

/-- Decidable equality for `Except`, so concrete runs can be settled by `decide`. -/
instance exceptDecEq {ε α : Type} [DecidableEq ε] [DecidableEq α] :
    DecidableEq (Except ε α) := fun a b =>
  match a, b with
  | .ok x, .ok y => decidable_of_iff (x = y) (by simp)
  | .ok _, .error _ => isFalse (fun h => Except.noConfusion h)
  | .error _, .ok _ => isFalse (fun h => Except.noConfusion h)
  | .error x, .error y => decidable_of_iff (x = y) (by simp)

/-! ## Python string primitives (over `List Char`) -/

/-- The six ASCII whitespace characters stripped by Python 2 `str.strip()`. -/
def isPySpace (c : Char) : Bool :=
  c = ' ' || c = '\t' || c = '\n' || c = '\x0d' || c = '\x0b' || c = '\x0c'

/-- `str.strip()`: drop leading and trailing whitespace. -/
def stripChars (l : List Char) : List Char :=
  ((l.dropWhile isPySpace).reverse.dropWhile isPySpace).reverse

/-- `str.lower()` (ASCII, as for Python 2 byte strings). -/
def lowerChars (l : List Char) : List Char :=
  l.map Char.toLower

/-- `str.split(sep)` for a single-character separator; like Python, the result is
never empty and empty fields are kept. -/
def splitOnChar (sep : Char) : List Char → List (List Char)
  | [] => [[]]
  | c :: rest =>
    let r := splitOnChar sep rest
    if c = sep then [] :: r
    else
      match r with
      | h :: t => (c :: h) :: t
      | [] => [[c]]

/-- Value of a digit character. -/
def digitVal (c : Char) : Nat := c.toNat - '0'.toNat

/-- Value of a list of digit characters read in base 10. -/
def digitsVal (l : List Char) : Nat :=
  l.foldl (fun acc c => acc * 10 + digitVal c) 0

/-- Unsigned core of Python `int(str)`: the (already sign-stripped) body must be a
nonempty run of decimal digits. -/
def pyIntCore (l : List Char) : Option Int :=
  if l ≠ [] ∧ l.all Char.isDigit then some (digitsVal l) else none

/-- Shared sign-and-whitespace handling of Python `int(str)` and `float(str)`:
surrounding whitespace is ignored and a single leading `+` or `-` is allowed. -/
def pySignedBody {α : Type} (neg : α → α) (f : List Char → Option α) :
    List Char → Option α
  | [] => f []
  | c :: r =>
    if c = '+' then f r
    else if c = '-' then (f r).map neg
    else f (c :: r)

def pySigned {α : Type} (neg : α → α) (f : List Char → Option α) (l : List Char) :
    Option α :=
  pySignedBody neg f (stripChars l)

/-- Python 2 `int(str)`: `None` result models the `ValueError`. -/
def pyIntChars (l : List Char) : Option Int :=
  pySigned Int.neg pyIntCore l

/-- Negation of a modelled float. -/
def PyFloat.neg (q : PyFloat) : PyFloat := ⟨-q.num, q.scale⟩

/-- Apply a decimal exponent to a mantissa. -/
def PyFloat.applyExp (q : PyFloat) (sgn : Int) (e : Nat) : PyFloat :=
  if sgn = 1 then ⟨q.num * (10 : Int) ^ e, q.scale⟩ else ⟨q.num, q.scale + e⟩

/-- Exponent suffix of a float literal: `(e|E)(+|-)? digits`, or nothing. -/
def pyFloatExp (l : List Char) (mant : PyFloat) : Option PyFloat :=
  match l with
  | [] => some mant
  | 'e' :: r | 'E' :: r =>
    let (sgn, r2) :=
      match r with
      | '+' :: r2 => ((1 : Int), r2)
      | '-' :: r2 => ((-1 : Int), r2)
      | r2 => ((1 : Int), r2)
    if r2 ≠ [] ∧ r2.all Char.isDigit then some (mant.applyExp sgn (digitsVal r2))
    else none
  | _ => none

/-- Unsigned core of Python `float(str)`: `digits [. digits] [exp]` with at least
one digit in the mantissa. -/
def pyFloatCore (l : List Char) : Option PyFloat :=
  let ds := l.takeWhile Char.isDigit
  let rest := l.dropWhile Char.isDigit
  match rest with
  | [] => if ds = [] then none else some ⟨(digitsVal ds : Int), 0⟩
  | '.' :: r2 =>
    let fs := r2.takeWhile Char.isDigit
    let rest2 := r2.dropWhile Char.isDigit
    if ds = [] ∧ fs = [] then none
    else pyFloatExp rest2 ⟨(digitsVal (ds ++ fs) : Int), fs.length⟩
  | _ =>
    if ds = [] then none else pyFloatExp rest ⟨(digitsVal ds : Int), 0⟩

/-- Python `float(str)`. -/
def pyFloatChars (l : List Char) : Option PyFloat :=
  pySigned PyFloat.neg pyFloatCore l

/-- Python `int()` truncates a float toward zero. -/
def floatTrunc (q : PyFloat) : Int := Int.tdiv q.num ((10 : Int) ^ q.scale)

/-- Python `x % 1 != 0` for a float: the fractional part is nonzero exactly when
the denominator does not divide the numerator. -/
def floatFracNonzero (q : PyFloat) : Bool := q.num % ((10 : Int) ^ q.scale) ≠ 0

/-! ## The two shape regexes, `re.search` semantics -/

/-- One-position match of `TIME_MATCHER = '[0-2][0-9]:[0-5][0-9]'`. -/
def timeAt : List Char → Bool
  | a :: b :: c :: d :: e :: _ =>
    ('0' ≤ a && a ≤ '2') && b.isDigit && c = ':' && ('0' ≤ d && d ≤ '5') && e.isDigit
  | _ => false

/-- `re.search(TIME_MATCHER, s)`: does the time shape occur anywhere? -/
def searchTimeL : List Char → Bool
  | [] => false
  | c :: rest => timeAt (c :: rest) || searchTimeL rest

/-- Consume exactly `n` decimal digits. -/
def takeDigits : Nat → List Char → Option (List Char)
  | 0, l => some l
  | _ + 1, [] => none
  | n + 1, c :: l => if c.isDigit then takeDigits n l else none

/-- The separator class (dash, slash or dot) of `DATE_MATCHER`. -/
def isSepChar (c : Char) : Bool := c = '-' || c = '/' || c = '.'

/-- One-position match of `DATE_MATCHER` (two-to-four digits, a separator, two
digits, a separator, two-to-four digits); trying every quantifier width is
equivalent to the backtracking search. -/
def dateAt (l : List Char) : Bool :=
  [2, 3, 4].any fun k1 =>
    match takeDigits k1 l with
    | some (s1 :: r1) =>
      isSepChar s1 &&
        (match takeDigits 2 r1 with
         | some (s2 :: r2) =>
           isSepChar s2 && ([2, 3, 4].any fun k2 => (takeDigits k2 r2).isSome)
         | _ => false)
    | _ => false

/-- `re.search(DATE_MATCHER, s)`. -/
def searchDateL : List Char → Bool
  | [] => false
  | c :: rest => dateAt (c :: rest) || searchDateL rest


/-! ## `datetime.strptime`, restricted to the directive vocabulary the engine emits
(`%d %m %y %Y %H %I %M %S %f %p` joined by literal separators), following the
regexes CPython builds for each directive. -/

/-- Parser state of `strptime`, with CPython defaults (year 1900, Jan 1,
midnight).  `pm` records a matched `%p`; `hour12` records that the hour came
from `%I`. -/
structure TMState where
  y : Int := 1900
  mo : Int := 1
  d : Int := 1
  h : Int := 0
  mi : Int := 0
  s : Int := 0
  us : Int := 0
  pm : Option Bool := none
  hour12 : Bool := false
  deriving DecidableEq, Repr

/-- Consume exactly `n` digits and return their value. -/
def takeDigitsVal (n : Nat) (l : List Char) : Option (Nat × List Char) :=
  match takeDigits n l with
  | some r => some (digitsVal (l.take n), r)
  | none => none

/-- Greedy one-or-two-digit field: try the two-digit reading first (as the
alternation in the CPython regex does), then the one-digit reading. -/
def take2or1 (ok2 ok1 : Nat → Bool) : List Char → Option (Nat × List Char)
  | a :: b :: r =>
    if a.isDigit && b.isDigit && ok2 (digitVal a * 10 + digitVal b) then
      some (digitVal a * 10 + digitVal b, r)
    else if a.isDigit && ok1 (digitVal a) then some (digitVal a, b :: r)
    else none
  | [a] => if a.isDigit && ok1 (digitVal a) then some (digitVal a, []) else none
  | [] => none

/-- Up to `n` further digits (greedy), accumulating the `%f` value. -/
def takeUpTo (n : Nat) (acc : Nat) (count : Nat) : List Char → (Nat × Nat × List Char)
  | [] => (acc, count, [])
  | c :: r =>
    match n with
    | 0 => (acc, count, c :: r)
    | m + 1 =>
      if c.isDigit then takeUpTo m (acc * 10 + digitVal c) (count + 1) r
      else (acc, count, c :: r)

/-- `%p`: `AM` or `PM`, case-insensitively. -/
def takeAmPm : List Char → Option (Bool × List Char)
  | a :: b :: r =>
    if (a = 'A' || a = 'a') && (b = 'M' || b = 'm') then some (false, r)
    else if (a = 'P' || a = 'p') && (b = 'M' || b = 'm') then some (true, r)
    else none
  | _ => none

/-- The directive-by-directive matching loop of `strptime` (format, then input). -/
def strptimeLoop : List Char → List Char → TMState → Option TMState
  | [], [], tm => some tm
  | [], _ :: _, _ => none
  | '%' :: dc :: pr, inp, tm =>
    match dc with
    | 'Y' =>
      match takeDigitsVal 4 inp with
      | some (v, r) => strptimeLoop pr r { tm with y := v }
      | none => none
    | 'y' =>
      match takeDigitsVal 2 inp with
      | some (v, r) =>
        strptimeLoop pr r { tm with y := if v ≤ 68 then 2000 + (v : Int) else 1900 + (v : Int) }
      | none => none
    | 'm' =>
      match take2or1 (fun v => 1 ≤ v && v ≤ 12) (fun v => 1 ≤ v && v ≤ 9) inp with
      | some (v, r) => strptimeLoop pr r { tm with mo := v }
      | none => none
    | 'd' =>
      match take2or1 (fun v => 1 ≤ v && v ≤ 31) (fun v => 1 ≤ v && v ≤ 9) inp with
      | some (v, r) => strptimeLoop pr r { tm with d := v }
      | none => none
    | 'H' =>
      match take2or1 (fun v => v ≤ 23) (fun _ => true) inp with
      | some (v, r) => strptimeLoop pr r { tm with h := v }
      | none => none
    | 'I' =>
      match take2or1 (fun v => 1 ≤ v && v ≤ 12) (fun v => 1 ≤ v && v ≤ 9) inp with
      | some (v, r) => strptimeLoop pr r { tm with h := v, hour12 := true }
      | none => none
    | 'M' =>
      match take2or1 (fun v => v ≤ 59) (fun _ => true) inp with
      | some (v, r) => strptimeLoop pr r { tm with mi := v }
      | none => none
    | 'S' =>
      match take2or1 (fun v => v ≤ 61) (fun _ => true) inp with
      | some (v, r) => strptimeLoop pr r { tm with s := v }
      | none => none
    | 'f' =>
      match inp with
      | c :: r =>
        if c.isDigit then
          let (v, cnt, r2) := takeUpTo 5 (digitVal c) 1 r
          strptimeLoop pr r2 { tm with us := (v * 10 ^ (6 - cnt) : Nat) }
        else none
      | [] => none
    | 'p' =>
      match takeAmPm inp with
      | some (b, r) => strptimeLoop pr r { tm with pm := some b }
      | none => none
    | _ => none
  | lc :: pr, ic :: ir, tm => if lc = ic then strptimeLoop pr ir tm else none
  | _ :: _, [], _ => none

/-- Gregorian leap year. -/
def isLeap (y : Int) : Bool := y % 4 = 0 && (y % 100 ≠ 0 || y % 400 = 0)

/-- Days in a month, for the validity check the `datetime` constructor performs. -/
def daysInMonth (y mo : Int) : Int :=
  if mo = 2 then (if isLeap y then 29 else 28)
  else if mo = 4 || mo = 6 || mo = 9 || mo = 11 then 30
  else 31

/-- 12-hour clock adjustment performed by `_strptime` when both `%I` and `%p`
matched, followed by the range checks of the `datetime` constructor. -/
def tmFinalize (tm : TMState) : Option TMState :=
  let h :=
    if tm.hour12 then
      match tm.pm with
      | some true => if tm.h = 12 then 12 else tm.h + 12
      | some false => if tm.h = 12 then 0 else tm.h
      | none => tm.h
    else tm.h
  if tm.s ≤ 59 ∧ tm.d ≤ daysInMonth tm.y tm.mo then some { tm with h := h } else none

/-- `datetime.strptime(s, pattern)`: `ValueError` when the input does not match
the pattern or the resulting date is invalid. -/
def strptimeE (s pattern : String) : Except PyError TMState :=
  match strptimeLoop pattern.data s.data {} with
  | some tm =>
    match tmFinalize tm with
    | some tm2 => .ok tm2
    | none => .error .valueError
  | none => .error .valueError


/-! ## Python `str()` rendering (used by the `varchar` conversion lambda and by
the diagnostic prints; no claim inspects these strings beyond identity on
string inputs). -/

/-- Left-pad a numeral with zeros. -/
def padZeros (s : String) (n : Nat) : String :=
  String.mk (List.replicate (n - s.length) '0') ++ s

/-- Decimal rendering of a modelled float (Python drops trailing zeros, which we
do not reproduce; no claim observes this). -/
def pyStrFloat (q : PyFloat) : String :=
  let sgn := if q.num < 0 then "-" else ""
  let a := q.num.natAbs
  let p := (10 : Nat) ^ q.scale
  if q.scale = 0 then sgn ++ toString a ++ ".0"
  else sgn ++ toString (a / p) ++ "." ++ padZeros (toString (a % p)) q.scale

/-- Python `str(x)` on the modelled scalars. -/
def pyStr : PyObj → String
  | .none => "None"
  | .str s => s
  | .int n => toString n
  | .float q => pyStrFloat q
  | .date y mo d => padZeros (toString y) 4 ++ "-" ++ padZeros (toString mo) 2 ++ "-" ++
      padZeros (toString d) 2
  | .time h mi s _ => padZeros (toString h) 2 ++ ":" ++ padZeros (toString mi) 2 ++ ":" ++
      padZeros (toString s) 2
  | .datetime y mo d h mi s _ =>
      padZeros (toString y) 4 ++ "-" ++ padZeros (toString mo) 2 ++ "-" ++
      padZeros (toString d) 2 ++ " " ++ padZeros (toString h) 2 ++ ":" ++
      padZeros (toString mi) 2 ++ ":" ++ padZeros (toString s) 2

/-! ## Module constants (source lines 8-34) -/

def INTEGER : String := "integer"
def FLOAT : String := "float"
def STRING : String := "varchar"
def DATE : String := "date"
def TIME : String := "time"
def DATETIME : String := "datetime"

/-- Records after which an unresolved time format is forced to the best guess. -/
def FORCE_FORMAT : Nat := 50

def POTENTIAL_DATE_FORMATS : List String := ["%d", "%m", "%y", "%Y"]

/-- Python truthiness of the string-or-None fields (`dataType`, `timeFormat`,
`dateFormat`, `pattern`): `None` and the empty string are falsy. -/
def pyFalsyStr : Option String → Bool
  | Option.none => true
  | some s => s.isEmpty

/-- The per-column state machine (source lines 101-114).  `conversionFunction`
stores the key under which the lambda was looked up in `CONVERSION_FUNCTIONS`
(the assignment is always `CONVERSION_FUNCTIONS[self.dataType]`, and `dataType`
never changes once set, so the key determines the stored lambda); `None` is
modelled by `none`. -/
structure Column where
  headerName : Option String
  values : List PyObj := []
  stringToNone : List String := ["none", "null", ""]
  dataType : Option String := none
  potentialDatePatterns : List (List String) := []
  timeSampleCount : Nat := 0
  timeFormat : Option String := none
  dateFormat : Option String := none
  pattern : Option String := none
  rawValueIndex : Int := -1
  conversionFunction : Option String := none
  charLength : Nat := 0
  deriving DecidableEq, Repr

/-- `Column(headerName, stringToNone)` constructor (source lines 102-114). -/
def mkColumn (headerName : Option String) (extraStringToNone : List String) : Column :=
  { headerName := headerName, stringToNone := ["none", "null", ""] ++ extraStringToNone }

/-! ## `stripValue` (source lines 161-170) -/

/-- `stripValue`: strings are stripped, the absent sentinels map to `None`
case-insensitively, and surviving strings update the running `charLength`
maximum; any non-string input is returned unchanged. -/
def stripValue (c : Column) (value : PyObj) : Column × PyObj :=
  match value with
  | .str s =>
    let s1 : List Char := stripChars s.data
    if c.stringToNone.any (fun pat => lowerChars s1 = lowerChars pat.data) then
      (c, .none)
    else ({ c with charLength := max c.charLength s1.length }, .str (String.mk s1))
  | v => (c, v)

/-! ## Type probes (source lines 191-209) -/

/-- Python `int(x)` on a scalar: `ValueError` for a non-numeric string,
`TypeError` for `None` and the native temporal objects. -/
def pyIntE (v : PyObj) : Except PyError Int :=
  match v with
  | .str s =>
    match pyIntChars s.data with
    | some n => .ok n
    | Option.none => .error .valueError
  | .int n => .ok n
  | .float q => .ok (floatTrunc q)
  | _ => .error .typeError

/-- Python `float(x)` on a scalar. -/
def pyFloatE (v : PyObj) : Except PyError PyFloat :=
  match v with
  | .str s =>
    match pyFloatChars s.data with
    | some q => .ok q
    | Option.none => .error .valueError
  | .int n => .ok ⟨n, 0⟩
  | .float q => .ok q
  | _ => .error .typeError

/-- `isNumber`: `int(value)` inside a bare `try/except`, so every failure kind is
swallowed. -/
def isNumber (v : PyObj) : Bool :=
  match pyIntE v with
  | .ok _ => true
  | .error _ => false

/-- `isDouble`: `float(value) % 1 != 0`; exceptions from `float` propagate
(the call sites only reach it after `isNumber` succeeded). -/
def isDoubleE (v : PyObj) : Except PyError Bool :=
  (pyFloatE v).map floatFracNonzero

/-- `hasTime`: `re.search(TIME_MATCHER, value)`; a non-string argument makes
`re.search` raise `TypeError`. -/
def hasTimeE (v : PyObj) : Except PyError Bool :=
  match v with
  | .str s => .ok (searchTimeL s.data)
  | _ => .error .typeError

/-- `hasDate`: `re.search(DATE_MATCHER, value)`. -/
def hasDateE (v : PyObj) : Except PyError Bool :=
  match v with
  | .str s => .ok (searchDateL s.data)
  | _ => .error .typeError

/-! ## `setDataType` (source lines 172-189) -/

/-- `setDataType`: numbers split into `FLOAT`/`INTEGER` by `isDouble` and get
their conversion function at once; otherwise the two shape regexes pick
`DATETIME`/`DATE`/`TIME`, and everything else is `STRING` (which also resolves
immediately). -/
def setDataType (c : Column) (value : PyObj) : Column × Option PyError :=
  if value = .none then (c, none)
  else if isNumber value then
    match isDoubleE value with
    | .error e => (c, some e)
    | .ok dbl =>
      let t := if dbl then FLOAT else INTEGER
      ({ c with dataType := some t, conversionFunction := some t }, none)
  else
    match hasTimeE value with
    | .error e => (c, some e)
    | .ok ht =>
      match hasDateE value with
      | .error e => (c, some e)
      | .ok hd =>
        if hd && ht then ({ c with dataType := some DATETIME }, none)
        else if hd then ({ c with dataType := some DATE }, none)
        else if ht then ({ c with dataType := some TIME }, none)
        else ({ c with dataType := some STRING, conversionFunction := some STRING }, none)

/-! ## Separator canonicalization (source lines 225-232) -/

/-- `re.sub(r'[/]', '-', value)` on the character list. -/
def normDateChars (l : List Char) : List Char :=
  l.map fun c => if c = '/' then '-' else c

/-- `re.sub(r'[.]', ':', value)` on the character list. -/
def normTimeChars (l : List Char) : List Char :=
  l.map fun c => if c = '.' then ':' else c

/-- `normalizeDateValue`: `re.sub` raises `TypeError` on a non-string. -/
def normalizeDateValueE (v : PyObj) : Except PyError PyObj :=
  match v with
  | .str s => .ok (.str (String.mk (normDateChars s.data)))
  | _ => .error .typeError

/-- `normalizeTimeValue`. -/
def normalizeTimeValueE (v : PyObj) : Except PyError PyObj :=
  match v with
  | .str s => .ok (.str (String.mk (normTimeChars s.data)))
  | _ => .error .typeError

/-! ## Conversion lambdas (`CONVERSION_FUNCTIONS`, source lines 27-34) -/

/-- Is this key one of the temporal conversion keys? -/
def isTemporalKey (k : String) : Bool := k = DATE || k = TIME || k = DATETIME

/-- Calling the stored conversion lambda with one argument
(`self.conversionFunction(value)`).  The temporal lambdas take two parameters,
so calling one of them this way is a `TypeError`. -/
def applyConv1 (k : String) (v : PyObj) : Except PyError PyObj :=
  if k = INTEGER then (pyIntE v).map PyObj.int
  else if k = FLOAT then (pyFloatE v).map PyObj.float
  else if k = STRING then .ok (.str (pyStr v))
  else .error .typeError

/-- Calling the stored conversion lambda with two arguments
(`self.conversionFunction(value, self.pattern)`).  The numeric and string
lambdas take one parameter, so this is a `TypeError` for them; `strptime` also
raises `TypeError` when handed a non-string value or a `None` pattern. -/
def applyConv2 (k : String) (v : PyObj) (pattern : Option String) : Except PyError PyObj :=
  if isTemporalKey k then
    match v, pattern with
    | .str s, some p =>
      match strptimeE s p with
      | .error e => .error e
      | .ok tm =>
        if k = DATE then .ok (.date tm.y tm.mo tm.d)
        else if k = TIME then .ok (.time tm.h tm.mi tm.s tm.us)
        else .ok (.datetime tm.y tm.mo tm.d tm.h tm.mi tm.s tm.us)
    | _, _ => .error .typeError
  else .error .typeError

/-! ## `setTimePattern` (source lines 234-250) -/

/-- `setTimePattern`, acting on the fields it touches (`timeSampleCount`,
`timeFormat`); the enclosing `setPattern` writes the results back.  The sample
counter is incremented before `int(timeParts[0])` can raise, exactly as in the
source. -/
def setTimePatternF (count0 : Nat) (tf0 : Option String) (value : String) (hasPM : Bool) :
    (Nat × Option String) × Option PyError :=
  let count := count0 + 1
  let timeParts := splitOnChar ':' (normTimeChars value.data)
  match timeParts with
  | [] => ((count, tf0), some .indexError)
  | p0 :: _ =>
    match pyIntChars p0 with
    | Option.none => ((count, tf0), some .valueError)
    | some h =>
      let found := h > 12
      let pat := (if found then "%H" else "%I") ++ ":%M" ++
        (if timeParts.length > 2 then ":%S" else "") ++
        (if timeParts.length > 3 then ".%f" else "") ++
        (if hasPM then " %p" else "")
      if found || count = FORCE_FORMAT then ((count, some pat), none)
      else ((count, tf0), none)

/-! ## `setDatePattern` (source lines 252-282) -/

/-- An element of the `toRemove` list built inside `setDatePattern`: either a
format-token string (from `['%Y', '%y']`) or — via the slip
`toRemove or [self.potentialDatePatterns[0]]` — the first slot candidate LIST
itself. -/
inductive RemItem where
  | tok (s : String)
  | lst (l : List String)
  deriving DecidableEq, Repr

/-- Python `list.remove(x)` on a candidate list: removes the first occurrence or
raises `ValueError`.  A `RemItem.lst` argument never equals any of the string
elements, so removing it always raises. -/
def pyListRemove (l : List String) (x : RemItem) : Except PyError (List String) :=
  match x with
  | .lst _ => .error .valueError
  | .tok s => if s ∈ l then .ok (l.erase s) else .error .valueError

/-- Remove each `toRemove` item in turn from one slot, stopping at the first
`ValueError` but keeping the removals already performed. -/
def removeItems (slot : List String) (items : List RemItem) : List String × Option PyError :=
  match items with
  | [] => (slot, none)
  | x :: rest =>
    match pyListRemove slot x with
    | .error e => (slot, some e)
    | .ok slot2 => removeItems slot2 rest

/-- The `for nIdx in range(len(...))` loop: removes the `toRemove` items from
every slot other than `idx`. -/
def removeFromOthersGo (idx : Nat) (toRemove : List RemItem) :
    List Nat → List (List String) → List (List String) × Option PyError
  | [], pdp => (pdp, none)
  | n :: rest, pdp =>
    if n = idx then removeFromOthersGo idx toRemove rest pdp
    else
      let r := removeItems (pdp.getD n []) toRemove
      let pdp2 := pdp.set n r.1
      match r.2 with
      | some err => (pdp2, some err)
      | none => removeFromOthersGo idx toRemove rest pdp2

def removeFromOthers (pdp : List (List String)) (idx : Nat) (toRemove : List RemItem) :
    List (List String) × Option PyError :=
  removeFromOthersGo idx toRemove (List.range pdp.length) pdp

/-- The `if len(self.potentialDatePatterns[idx]) == 1` tail of the per-part loop
body: when the current slot is down to one candidate, remove `toRemove` — or,
when `toRemove` is empty, the first slot candidate list itself — from every
other slot. -/
def dateSlotNarrow (pdp : List (List String)) (idx : Nat) (toRemove : List RemItem) :
    List (List String) × Option PyError :=
  if (pdp.getD idx []).length = 1 then
    let toRemove2 := if toRemove.isEmpty then [RemItem.lst (pdp.headD [])] else toRemove
    removeFromOthers pdp idx toRemove2
  else (pdp, none)

/-- One iteration of `for idx, part in enumerate(dateParts)`.  Every branch
starts by touching `potentialDatePatterns[idx]`, so an out-of-range index (a
later sample with more parts than the first) is an `IndexError` on all paths. -/
def datePartStep (pdp : List (List String)) (idx : Nat) (part : Int) :
    List (List String) × Option PyError :=
  match pdp[idx]? with
  | Option.none => (pdp, some .indexError)
  | some slot =>
    if (toString part).length = 4 then
      dateSlotNarrow (pdp.set idx ["%Y"]) idx [.tok "%Y", .tok "%y"]
    else if part > 31 then
      dateSlotNarrow (pdp.set idx ["%y"]) idx [.tok "%Y", .tok "%y"]
    else if part > 12 then
      match pyListRemove slot (.tok "%m") with
      | .error e => (pdp, some e)
      | .ok slot2 => dateSlotNarrow (pdp.set idx slot2) idx []
    else dateSlotNarrow pdp idx []

/-- The whole enumerated loop, stopping at the first exception but keeping the
mutations made before it. -/
def datePartsLoop (pdp : List (List String)) :
    List (Nat × Int) → List (List String) × Option PyError
  | [] => (pdp, none)
  | (idx, part) :: rest =>
    match datePartStep pdp idx part with
    | (pdp1, some e) => (pdp1, some e)
    | (pdp1, none) => datePartsLoop pdp1 rest

/-- `[int(x) for x in ...]`: the comprehension evaluates before any state is
touched, so a single failing part yields `ValueError` with nothing mutated. -/
def mapIntParts : List (List Char) → Option (List Int)
  | [] => some []
  | p :: rest =>
    match pyIntChars p with
    | some n => (mapIntParts rest).map (n :: ·)
    | Option.none => Option.none

/-- `subPat[0]` for each slot; an empty slot is an `IndexError`. -/
def headsOf : List (List String) → Option (List String)
  | [] => some []
  | [] :: _ => Option.none
  | (t :: _) :: rest => (headsOf rest).map (t :: ·)

/-- `setDatePattern`, acting on the fields it touches (`potentialDatePatterns`,
`dateFormat`).  On first sight the per-slot candidate table is initialized to a
copy of `POTENTIAL_DATE_FORMATS` per part; the `foundPattern` scan accepts any
table whose slots all have at most one candidate and joins the heads with
dashes, dropping the trailing dash. -/
def setDatePatternF (pdp0 : List (List String)) (df0 : Option String) (value : String) :
    (List (List String) × Option String) × Option PyError :=
  match mapIntParts (splitOnChar '-' (normDateChars value.data)) with
  | Option.none => ((pdp0, df0), some .valueError)
  | some dateParts =>
    let pdp1 := if pdp0.isEmpty then dateParts.map (fun _ => POTENTIAL_DATE_FORMATS) else pdp0
    match datePartsLoop pdp1 dateParts.enum with
    | (pdp2, some e) => ((pdp2, df0), some e)
    | (pdp2, none) =>
      if pdp2.all (fun pat => pat.length ≤ 1) then
        match headsOf pdp2 with
        | Option.none => ((pdp2, df0), some .indexError)
        | some toks =>
          let joined : List Char := toks.foldl (fun acc t => acc ++ t.data ++ ['-']) []
          ((pdp2, some (String.mk joined.dropLast)), none)
      else ((pdp2, df0), none)

/-! ## `setPattern` (source lines 211-223) -/

/-- The six fields `setPattern` can write (it reads `dataType` but never writes
it); gathering them makes the frame of `setPattern` explicit. -/
structure PatternFields where
  timeSampleCount : Nat
  timeFormat : Option String
  potentialDatePatterns : List (List String)
  dateFormat : Option String
  pattern : Option String
  conversionFunction : Option String
  deriving DecidableEq, Repr

def Column.patternFields (c : Column) : PatternFields :=
  ⟨c.timeSampleCount, c.timeFormat, c.potentialDatePatterns, c.dateFormat,
    c.pattern, c.conversionFunction⟩

/-- `setPattern`, on its frame.  The source tests
`if self.hasTime and not self.timeFormat:` and
`if self.hasDate and not self.dateFormat:` — `self.hasTime` / `self.hasDate`
are the bound method objects, not calls, and a bound method is always truthy, so
both conditions degenerate to the falsiness test on the format field.  The time
step then reads `parts[1]`, which raises `IndexError` whenever the value has no
space-separated second part. -/
def setPatternF (dataType : Option String) (pf0 : PatternFields) (value : PyObj) :
    PatternFields × Option PyError :=
  match value with
  | .str s =>
    let parts : List String := (splitOnChar ' ' s.data).map String.mk
    let step1 : PatternFields × Option PyError :=
      if pyFalsyStr pf0.timeFormat then
        match parts[1]? with
        | Option.none => (pf0, some .indexError)
        | some p1 =>
          let r := setTimePatternF pf0.timeSampleCount pf0.timeFormat p1 (parts.length > 2)
          ({ pf0 with timeSampleCount := r.1.1, timeFormat := r.1.2 }, r.2)
      else (pf0, none)
    match step1 with
    | (pf1, some e) => (pf1, some e)
    | (pf1, none) =>
      let step2 : PatternFields × Option PyError :=
        if pyFalsyStr pf1.dateFormat then
          let r := setDatePatternF pf1.potentialDatePatterns pf1.dateFormat (parts.headD "")
          ({ pf1 with potentialDatePatterns := r.1.1, dateFormat := r.1.2 }, r.2)
        else (pf1, none)
      match step2 with
      | (pf2, some e) => (pf2, some e)
      | (pf2, none) =>
        if dataType = some DATETIME then
          if !pyFalsyStr pf2.timeFormat && !pyFalsyStr pf2.dateFormat then
            ({ pf2 with
                pattern := some ((pf2.dateFormat.getD "") ++ " " ++ (pf2.timeFormat.getD "")),
                conversionFunction := dataType }, none)
          else (pf2, none)
        else if (dataType = some TIME && !pyFalsyStr pf2.timeFormat) ||
            (dataType = some DATE && !pyFalsyStr pf2.dateFormat) then
          -- `self.pattern = self.timeFormat or self.dateFormat`
          ({ pf2 with
              pattern := if !pyFalsyStr pf2.timeFormat then pf2.timeFormat else pf2.dateFormat,
              conversionFunction := dataType }, none)
        else (pf2, none)
  | _ => (pf0, some .attributeError)

/-- `setPattern` on the whole column: run the frame function and write the six
fields back. -/
def setPattern (c : Column) (value : PyObj) : Column × Option PyError :=
  let r := setPatternF c.dataType c.patternFields value
  ({ c with
      timeSampleCount := r.1.timeSampleCount,
      timeFormat := r.1.timeFormat,
      potentialDatePatterns := r.1.potentialDatePatterns,
      dateFormat := r.1.dateFormat,
      pattern := r.1.pattern,
      conversionFunction := r.1.conversionFunction }, r.2)

/-- The separator-canonicalization dispatch of `processValue` (source lines
125-130): dates replace slashes, times replace dots, datetimes do both, any
other type passes the value through. -/
def normalizeByType (dt : Option String) (value : PyObj) : Except PyError PyObj :=
  if dt = some DATE then normalizeDateValueE value
  else if dt = some TIME then normalizeTimeValueE value
  else if dt = some DATETIME then
    match normalizeTimeValueE value with
    | .ok v2 => normalizeDateValueE v2
    | .error e => .error e
  else .ok value

/-! ## `processValue` (source lines 116-146) -/

/-- Lines 123-146 of `processValue`, after the data type is known: refine the
pattern while unresolved (`if not self.conversionFunction:` — the stored object
is a lambda, which is always truthy, so the test is exactly `is None`),
canonicalize separators, then buffer raw or convert. -/
def processValueTail (c1 : Column) (value : PyObj) : Column × Option PyError :=
  match (if c1.conversionFunction = none then setPattern c1 value else (c1, none)) with
  | (c2, some e) => (c2, some e)
  | (c2, none) =>
    match normalizeByType c2.dataType value with
    | .error e => (c2, some e)
    | .ok value2 =>
      match c2.conversionFunction with
      | Option.none =>
        ({ c2 with rawValueIndex := c2.rawValueIndex + 1,
                   values := c2.values ++ [value2] }, none)
      | some k =>
        if (c2.dataType.getD "") ∈ [DATETIME, DATE, TIME] then
          match applyConv2 k value2 c2.pattern with
          | .ok out => ({ c2 with values := c2.values ++ [out] }, none)
          | .error .valueError =>
            (c2, some (.convFailure (.withPattern c2.headerName value2 c2.pattern)))
          | .error e => (c2, some e)
        else
          match applyConv1 k value2 with
          | .ok out => ({ c2 with values := c2.values ++ [out] }, none)
          | .error .valueError =>
            (c2, some (.convFailure (.noPattern c2.headerName value2)))
          | .error e => (c2, some e)

/-- `processValue`.  Absent values append `None` directly; otherwise the first
concrete value fixes the data type, unresolved columns keep refining the
pattern, temporal values get their separators canonicalized, and the value is
either buffered raw (incrementing `rawValueIndex`) or converted.  Only a
`ValueError` from the conversion lambda is caught-and-reprinted (as
`convFailure`, carrying exactly the print arguments); other exception kinds
propagate bare. -/
def processValue (c0 : Column) (rawValue : PyObj) : Column × Option PyError :=
  let sr := stripValue c0 rawValue
  let c := sr.1
  let value := sr.2
  if value = .none then ({ c with values := c.values ++ [PyObj.none] }, none)
  else
    let s1 := if pyFalsyStr c.dataType then setDataType c value else (c, none)
    match s1 with
    | (c1, some e) => (c1, some e)
    | (c1, none) => processValueTail c1 value

/-! ## `fixUpRawValues` (source lines 148-159) -/

/-- The `for i in range(self.rawValueIndex)` sweep: skip absent entries, convert
the rest in place; conversion exceptions propagate bare, keeping the entries
already rewritten. -/
def fixUpLoop (k : String) (temporal : Bool) (pattern : Option String) :
    List Nat → List PyObj → List PyObj × Option PyError
  | [], values => (values, none)
  | i :: rest, values =>
    match values[i]? with
    | Option.none => (values, some .indexError)
    | some PyObj.none => fixUpLoop k temporal pattern rest values
    | some v =>
      let conv := if temporal then applyConv2 k v pattern else applyConv1 k v
      match conv with
      | .error e => (values, some e)
      | .ok out => fixUpLoop k temporal pattern rest (values.set i out)

/-- `fixUpRawValues`: a no-op when nothing was buffered; an exception when
values were buffered but no conversion function ever became available;
otherwise the in-place sweep over `range(self.rawValueIndex)` indices. -/
def fixUpRawValues (c : Column) : Column × Option PyError :=
  if c.rawValueIndex = -1 then (c, none)
  else
    match c.conversionFunction with
    | Option.none => (c, some .unresolvedFormat)
    | some k =>
      let temporal := (c.dataType.getD "") ∈ [DATETIME, DATE, TIME]
      let r := fixUpLoop k temporal c.pattern (List.range c.rawValueIndex.toNat) c.values
      ({ c with values := r.1 }, r.2)

/-! ## Claim-side definitions

The definitions in this section follow the WORDS of spec claims (they are the
only definitions in this file not translated from the source); the theorems
below compare them with the source-translated functions. -/

/-- Claim C4 wording: the value `parses as an integer`. -/
def specParsesAsInteger : PyObj → Bool
  | .str s => (pyIntChars s.data).isSome
  | .int _ => true
  | .float q => !floatFracNonzero q
  | _ => false

/-- Claim C4 wording: the value `parses as a number with a non-zero fractional
remainder`. -/
def specParsesAsNumberWithFrac : PyObj → Bool
  | .str s =>
    match pyFloatChars s.data with
    | some q => floatFracNonzero q
    | Option.none => false
  | .float q => floatFracNonzero q
  | _ => false

/-- The data type claim C4 asserts `setDataType` assigns to the first non-absent
value: Integer, else Float, else the shape cascade. -/
def specC4Type (v : PyObj) : String :=
  if specParsesAsInteger v then INTEGER
  else if specParsesAsNumberWithFrac v then FLOAT
  else
    match v with
    | .str s =>
      if searchTimeL s.data && searchDateL s.data then DATETIME
      else if searchDateL s.data then DATE
      else if searchTimeL s.data then TIME
      else STRING
    | _ => STRING

/-- The amended claim C4 table: `int(value)` decides numberhood (a decimal
string such as `3.5` fails it and falls through to the shape cascade), and
`float(value) % 1` splits `FLOAT` from `INTEGER`; native temporal objects make
the shape probe raise `TypeError`. -/
def amendedC4 : PyObj → Except PyError String
  | .str s =>
    .ok (if (pyIntChars s.data).isSome then
        (match pyFloatChars s.data with
         | some q => if floatFracNonzero q then FLOAT else INTEGER
         | Option.none => INTEGER)
      else if searchDateL s.data && searchTimeL s.data then DATETIME
      else if searchDateL s.data then DATE
      else if searchTimeL s.data then TIME
      else STRING)
  | .int _ => .ok INTEGER
  | .float q => .ok (if floatFracNonzero q then FLOAT else INTEGER)
  | _ => .error .typeError

/-- Claim C8 wording: the conversion-failure report names the column label, the
offending value, and the pattern/type in effect — i.e. the print has a third
format slot carrying the pattern or the data type of the column. -/
def specC8ReportComplete (e : Option PyError) (c : Column) (offending : PyObj) : Prop :=
  ∃ extra, e = some (.convFailure (.withPattern c.headerName offending extra)) ∧
    (extra = c.pattern ∨ extra = c.dataType)

/-- The state transition the amended claim C4 predicts for `setDataType`:
assign the table type (and, for the immediately-resolving types, the conversion
function), or raise the table error leaving the column untouched. -/
def setDataTypeExpected (c : Column) (r : Except PyError String) : Column × Option PyError :=
  match r with
  | .ok t =>
    ({ c with dataType := some t,
              conversionFunction := if isTemporalKey t then c.conversionFunction else some t },
     none)
  | .error e => (c, some e)

/-! ## Concrete columns used by the claim checks -/

/-- A resolved Integer column labelled `n` (the state `processValue` produces
after a first sample `42`). -/
def cIntN : Column :=
  { mkColumn (some "n") [] with dataType := some INTEGER, conversionFunction := some INTEGER }

/-- A resolved Date column with two buffered raw values awaiting fix-up
(`rawValueIndex` was incremented once per buffered value from `-1`). -/
def c2FixColumn : Column :=
  { mkColumn (some "d2") [] with
    dataType := some DATE,
    conversionFunction := some DATE,
    pattern := some "%y-%m-%d",
    values := [.str "03-04-05", .str "06-07-08"],
    rawValueIndex := 1 }

/-- A resolved Integer column labelled `w6`. -/
def cW6 : Column :=
  { mkColumn (some "w6") [] with dataType := some INTEGER, conversionFunction := some INTEGER }

/-- An unresolved Date column that buffered three raw values and never obtained
a conversion function. -/
def cW7 : Column :=
  { mkColumn (some "w7") [] with
    dataType := some DATE,
    rawValueIndex := 2,
    values := [.str "03-04-05", .str "06-07-08", .str "09-10-11"] }

/-! ## Parser lemmas -/

/-- A list of digit characters is its own digit prefix. -/
theorem takeWhile_all_digits {l : List Char} (h : l.all Char.isDigit = true) :
    l.takeWhile Char.isDigit = l ∧ l.dropWhile Char.isDigit = [] := by
  induction l with
  | nil => simp
  | cons a t ih =>
    simp only [List.all_cons, Bool.and_eq_true] at h
    simp [List.takeWhile_cons, List.dropWhile_cons, h.1, ih h.2]

/-- When `int(s)` succeeds on the sign-stripped body, `float(s)` succeeds on it
too, with the same (integral) value. -/
theorem pyIntCore_floatCore {l : List Char} {n : Int} (h : pyIntCore l = some n) :
    pyFloatCore l = some ⟨n, 0⟩ := by
  unfold pyIntCore at h
  split at h
  case isTrue hcond =>
    obtain ⟨hne, hall⟩ := hcond
    obtain ⟨htw, hdw⟩ := takeWhile_all_digits hall
    injection h with h
    unfold pyFloatCore
    rw [htw, hdw]
    simp [hne, h]
  case isFalse => exact absurd h (by simp)

/-- Case analysis of the shared sign handling: an integer parse of the stripped
body yields a float parse of the same value. -/
theorem pySignedBody_int_float {r : List Char} {n : Int}
    (h : pySignedBody Int.neg pyIntCore r = some n) :
    pySignedBody PyFloat.neg pyFloatCore r = some ⟨n, 0⟩ := by
  cases r with
  | nil =>
    simp only [pySignedBody] at h ⊢
    exact pyIntCore_floatCore h
  | cons c r =>
    simp only [pySignedBody] at h ⊢
    by_cases hp : c = '+'
    · simp only [if_pos hp] at h ⊢
      exact pyIntCore_floatCore h
    · simp only [if_neg hp] at h ⊢
      by_cases hm : c = '-'
      · simp only [if_pos hm] at h ⊢
        rcases hc : pyIntCore r with _ | m
        · simp [hc] at h
        · rw [hc] at h
          rw [pyIntCore_floatCore hc]
          have h2 : (-m : Int) = n := by simpa using h
          simp [PyFloat.neg, h2]
      · simp only [if_neg hm] at h ⊢
        exact pyIntCore_floatCore h

/-- When `int(s)` succeeds, `float(s)` succeeds (with the same integral value). -/
theorem pyIntChars_floatChars {l : List Char} {n : Int} (h : pyIntChars l = some n) :
    pyFloatChars l = some ⟨n, 0⟩ := by
  unfold pyIntChars pySigned at h
  unfold pyFloatChars pySigned
  exact pySignedBody_int_float h

/-! ## Frame and preservation lemmas -/

/-- `stripValue` can only change `charLength`. -/
theorem stripValue_fst (c : Column) (v : PyObj) :
    (stripValue c v).1 = { c with charLength := (stripValue c v).1.charLength } := by
  cases v <;> try rfl
  simp only [stripValue]
  split <;> rfl

theorem stripValue_dataType (c : Column) (v : PyObj) :
    (stripValue c v).1.dataType = c.dataType := by
  rw [stripValue_fst]

theorem stripValue_headerName (c : Column) (v : PyObj) :
    (stripValue c v).1.headerName = c.headerName := by
  rw [stripValue_fst]

theorem stripValue_pattern (c : Column) (v : PyObj) :
    (stripValue c v).1.pattern = c.pattern := by
  rw [stripValue_fst]

theorem stripValue_conversionFunction (c : Column) (v : PyObj) :
    (stripValue c v).1.conversionFunction = c.conversionFunction := by
  rw [stripValue_fst]

/-- A stripped string value is either absent or again a string. -/
theorem stripValue_str_cases (c : Column) (s : String) :
    (stripValue c (.str s)).2 = PyObj.none ∨
    ∃ s2, (stripValue c (.str s)).2 = PyObj.str s2 := by
  simp only [stripValue]
  split
  · left; rfl
  · right; exact ⟨_, rfl⟩

/-- `setPattern` writes only its six frame fields, so `dataType` is untouched. -/
theorem setPattern_dataType (c : Column) (v : PyObj) :
    (setPattern c v).1.dataType = c.dataType := rfl

/-- The tail of `processValue` never writes `dataType`. -/
theorem processValueTail_dataType (c : Column) (v : PyObj) :
    (processValueTail c v).1.dataType = c.dataType := by
  unfold processValueTail
  split
  · rename_i c2 e hcf
    split at hcf
    · have h2 := congrArg (fun p => p.1.dataType) hcf
      simpa [setPattern_dataType] using h2.symm
    · simp at hcf
  · rename_i c2 hcf
    have hc2 : c2.dataType = c.dataType := by
      split at hcf
      · have h2 := congrArg (fun p => p.1.dataType) hcf
        simpa [setPattern_dataType] using h2.symm
      · have h2 := congrArg (fun p => p.1.dataType) hcf
        simpa using h2.symm
    repeat' split
    all_goals simpa using hc2

/-- Once `dataType` holds a truthy value, `processValue` leaves it unchanged. -/
theorem processValue_dataType (c : Column) (v : PyObj) (h : pyFalsyStr c.dataType = false) :
    (processValue c v).1.dataType = c.dataType := by
  unfold processValue
  simp only [stripValue_dataType, h, Bool.false_eq_true, if_false]
  split
  · simp [stripValue_dataType]
  · simp [processValueTail_dataType, stripValue_dataType]

/-- `fixUpRawValues` can only rewrite entries of `values`. -/
theorem fixUpRawValues_fst (c : Column) :
    (fixUpRawValues c).1 = { c with values := (fixUpRawValues c).1.values } := by
  unfold fixUpRawValues
  split
  · rfl
  · split <;> rfl

theorem fixUpRawValues_dataType (c : Column) :
    (fixUpRawValues c).1.dataType = c.dataType := by
  rw [fixUpRawValues_fst]

/-! ## Evaluation lemmas for the type table -/

theorem isTemporalKey_INTEGER : isTemporalKey INTEGER = false := by decide
theorem isTemporalKey_FLOAT : isTemporalKey FLOAT = false := by decide
theorem isTemporalKey_STRING : isTemporalKey STRING = false := by decide
theorem isTemporalKey_DATE : isTemporalKey DATE = true := by decide
theorem isTemporalKey_TIME : isTemporalKey TIME = true := by decide
theorem isTemporalKey_DATETIME : isTemporalKey DATETIME = true := by decide

/-- An integral modelled float has a zero fractional part. -/
theorem floatFracNonzero_int (n : Int) : floatFracNonzero ⟨n, 0⟩ = false := by
  simp [floatFracNonzero, Int.emod_one]

/-- `setDataType` agrees with the amended type table on every non-absent value
(the helper behind claims C4 and C6). -/
theorem setDataType_spec (c : Column) (v : PyObj) (hv : v ≠ PyObj.none) :
    setDataType c v = setDataTypeExpected c (amendedC4 v) := by
  cases v with
  | none => exact absurd rfl hv
  | str s =>
    rcases hi : pyIntChars s.data with _ | n
    · simp only [setDataType, setDataTypeExpected, amendedC4, isNumber, isDoubleE, pyIntE,
        pyFloatE, hasTimeE, hasDateE, hi, Option.isSome_none, reduceIte, reduceCtorEq]
      by_cases hd : searchDateL s.data <;> by_cases ht : searchTimeL s.data <;>
        simp [setDataTypeExpected, hd, ht, isTemporalKey_DATETIME, isTemporalKey_DATE,
          isTemporalKey_TIME, isTemporalKey_STRING]
    · have hf := pyIntChars_floatChars hi
      simp [setDataType, setDataTypeExpected, amendedC4, isNumber, isDoubleE, pyIntE,
        pyFloatE, Except.map, hi, hf, floatFracNonzero_int, isTemporalKey_INTEGER]
  | int n =>
    simp [setDataType, setDataTypeExpected, amendedC4, isNumber, isDoubleE, pyIntE, pyFloatE,
      Except.map, floatFracNonzero_int, isTemporalKey_INTEGER]
  | float q =>
    by_cases hq : floatFracNonzero q <;>
      simp [setDataType, setDataTypeExpected, amendedC4, isNumber, isDoubleE, pyIntE, pyFloatE,
        Except.map, hq, isTemporalKey_INTEGER, isTemporalKey_FLOAT]
  | date y mo d =>
    simp [setDataType, setDataTypeExpected, amendedC4, isNumber, pyIntE, hasTimeE]
  | time h mi s us =>
    simp [setDataType, setDataTypeExpected, amendedC4, isNumber, pyIntE, hasTimeE]
  | datetime y mo d h mi s us =>
    simp [setDataType, setDataTypeExpected, amendedC4, isNumber, pyIntE, hasTimeE]

/-- The amended type table only produces the six truthy type-name constants on
string input. -/
theorem amendedC4_str_nonfalsy (s : String) (t : String)
    (h : amendedC4 (.str s) = .ok t) : pyFalsyStr (some t) = false := by
  simp only [amendedC4] at h
  injection h with h
  subst h
  simp only [pyFalsyStr]
  repeat' split
  all_goals decide

/-- When `dataType` is unset and the stripped value is a non-absent string, the
`processValue` call assigns a truthy data type. -/
theorem processValue_assigns (c : Column) (s : String)
    (h : pyFalsyStr c.dataType = true)
    (hs : (stripValue c (.str s)).2 ≠ PyObj.none) :
    pyFalsyStr (processValue c (.str s)).1.dataType = false := by
  unfold processValue
  rcases stripValue_str_cases c s with hcase | ⟨s2, hcase⟩
  · exact absurd hcase hs
  · simp only [hcase, stripValue_dataType, h, reduceCtorEq, if_false, if_true]
    rw [setDataType_spec _ _ (by simp)]
    rcases ha : amendedC4 (.str s2) with e | t
    · simp [amendedC4] at ha
    · simp only [setDataTypeExpected, ha]
      rw [processValueTail_dataType]
      simpa using amendedC4_str_nonfalsy s2 t ha

/-! ## Claim theorems -/

/-- C1: the spec claims that feeding `2023-04-15` (then `2023-01-05`) to a Date
column pins the first slot to year and resolves the pattern `%Y-%m-%d`.  In the
code, the very first sample raises `IndexError`: `setPattern` tests the always
truthy bound method `self.hasTime` instead of calling it and then reads
`parts[1]`, which does not exist for a date-only value, so no pattern is ever
resolved. -/
theorem c1_date_column_first_sample_raises :
    (processValue (mkColumn (some "d") []) (.str "2023-04-15")).2 =
      some PyError.indexError ∧
    (processValue (mkColumn (some "d") []) (.str "2023-04-15")).1.dataType = some DATE ∧
    (processValue (mkColumn (some "d") []) (.str "2023-04-15")).1.dateFormat = none ∧
    (processValue (mkColumn (some "d") []) (.str "2023-04-15")).1.pattern = none := by
  decide

/-- C2: the spec claims `fixUpRawValues` converts every buffered raw entry with
the final conversion function and pattern.  The loop `for i in
range(self.rawValueIndex)` runs one short of the number of buffered entries
(`rawValueIndex` starts at `-1` and is incremented before each buffered
append), so on a resolved Date column with two buffered values the second stays
an unconverted raw string even though the conversion function accepts it. -/
theorem c2_fixup_skips_last_buffered_entry :
    (fixUpRawValues c2FixColumn).2 = none ∧
    (fixUpRawValues c2FixColumn).1.values =
      [PyObj.date 2003 4 5, PyObj.str "06-07-08"] ∧
    applyConv2 DATE (.str "06-07-08") (some "%y-%m-%d") = .ok (.date 2006 7 8) := by
  decide

/-- C3: the spec claims that whenever one slot narrows to a single candidate,
that candidate is removed from every other slot.  On the sample `2023-04-15`
the third slot narrows to `['%d']` via the greater-than-12 rule, but the code
then builds `toRemove = toRemove or [self.potentialDatePatterns[0]]` — the
first slot candidate LIST, not the narrowed token — and `list.remove` of that
list raises `ValueError`; `'%d'` is never removed from the second slot (which
still holds `['%d', '%m']`) and no date format is produced. -/
theorem c3_slot_narrowing_removal_raises :
    setDatePatternF [] none "2023-04-15" =
      (([["%Y"], ["%d", "%m"], ["%d"]], none), some PyError.valueError) := by
  decide

/-- C4 counterexample: the claim says a value that parses as a number with a
non-zero fractional remainder becomes Float.  The stripped string `3.5` parses
as the number 3.5 (non-zero remainder), so the claim prescribes Float, but
`setDataType` probes numberhood with `int(value)`, which fails on `3.5`, and
the shape cascade then lands on String. -/
theorem c4_counterexample_decimal_string :
    specC4Type (.str "3.5") = FLOAT ∧
    (setDataType (mkColumn (some "c4") []) (.str "3.5")).1.dataType = some STRING ∧
    (STRING : String) ≠ FLOAT := by
  decide

/-- C4 (amended): for every first non-absent value, `setDataType` assigns the
type given by the table in which `int(value)` decides numberhood (so a decimal
string such as `3.5` is not numeric and falls through to the shape cascade,
becoming String), `float(value) % 1` splits Float from Integer, the shape
cascade handles the rest of the strings, and a native temporal object raises
`TypeError`; Integer, Float and String get their conversion function at once. -/
theorem c4_amended_setDataType_table (c : Column) (v : PyObj) (hv : v ≠ PyObj.none) :
    setDataType c v = setDataTypeExpected c (amendedC4 v) :=
  setDataType_spec c v hv

theorem c4_witness :
    setDataType (mkColumn (some "c4w") []) (.str "3.5") =
      setDataTypeExpected (mkColumn (some "c4w") []) (amendedC4 (.str "3.5")) :=
  c4_amended_setDataType_table (mkColumn (some "c4w") []) (.str "3.5") (by decide)

/-- C5: the spec claims 50 plain time samples with hours at most 12 and no
AM/PM marker force the pattern `%I:%M` on the 50th sample.  In the code a Time
column cannot survive even the first sample: the value `05:30` sets
`dataType = TIME`, but `setPattern` (reached because the uncalled bound method
`self.hasTime` is truthy) reads `parts[1]` of the space-split value, which does
not exist, raising `IndexError` before `setTimePattern` ever runs. -/
theorem c5_time_column_first_sample_raises :
    (processValue (mkColumn (some "t") []) (.str "05:30")).2 = some PyError.indexError ∧
    (processValue (mkColumn (some "t") []) (.str "05:30")).1.dataType = some TIME ∧
    (processValue (mkColumn (some "t") []) (.str "05:30")).1.timeSampleCount = 0 ∧
    (processValue (mkColumn (some "t") []) (.str "05:30")).1.timeFormat = none := by
  decide

/-- C6 counterexample: the claim says `dataType` is assigned exactly once, from
the first non-absent value.  When the first non-absent value is a native
datetime, the call raises `TypeError` before the assignment, leaving `dataType`
unset, and a later string value then performs the assignment — so the type does
not come from the first non-absent value. -/
theorem c6_counterexample_native_datetime_first :
    (processValue (mkColumn (some "c6") []) (.datetime 2024 1 2 3 4 5 0)).1.dataType =
      none ∧
    (processValue (mkColumn (some "c6") []) (.datetime 2024 1 2 3 4 5 0)).2 =
      some PyError.typeError ∧
    (processValue (processValue (mkColumn (some "c6") []) (.datetime 2024 1 2 3 4 5 0)).1
      (.str "42")).1.dataType = some INTEGER := by
  decide

/-- C6 (amended): once `dataType` holds a (truthy) value, no `processValue` or
`fixUpRawValues` call ever changes it — even a failing call; and whenever
`dataType` is unset and a `processValue` call strips a string to a non-absent
value, that call assigns a truthy `dataType`.  (A native date/time first value
instead raises `TypeError` with `dataType` left unset, which is what the
counterexample exhibits.) -/
theorem c6_amended_type_stability (c : Column) (v : PyObj) :
    (∀ t : String, c.dataType = some t → t ≠ "" →
      (processValue c v).1.dataType = some t ∧ (fixUpRawValues c).1.dataType = some t)
    ∧ (∀ s : String, pyFalsyStr c.dataType = true → v = PyObj.str s →
      (stripValue c v).2 ≠ PyObj.none →
      pyFalsyStr (processValue c v).1.dataType = false) := by
  constructor
  · intro t ht hte
    have hfal : pyFalsyStr c.dataType = false := by
      rw [ht]
      simp only [pyFalsyStr]
      cases hemp : t.isEmpty
      · rfl
      · exact absurd ((String.isEmpty_iff t).mp hemp) hte
    exact ⟨by rw [processValue_dataType c v hfal, ht],
      by rw [fixUpRawValues_dataType, ht]⟩
  · intro s h hv hs
    subst hv
    exact processValue_assigns c s h hs

theorem c6_witness :
    (processValue cW6 (.str "99")).1.dataType = some INTEGER ∧
    (fixUpRawValues cW6).1.dataType = some INTEGER :=
  (c6_amended_type_stability cW6 (.str "99")).1 INTEGER (by decide) (by decide)

/-- C7: when at least one raw value was buffered (`rawValueIndex` is not `-1`)
and no conversion function was ever set, `fixUpRawValues` raises the
unresolved-format exception and leaves the column untouched — no partial or
best-guess output. -/
theorem c7_unresolved_format_raises (c : Column) (h1 : c.rawValueIndex ≠ -1)
    (h2 : c.conversionFunction = none) :
    fixUpRawValues c = (c, some PyError.unresolvedFormat) := by
  unfold fixUpRawValues
  simp [h1, h2]

theorem c7_witness : fixUpRawValues cW7 = (cW7, some PyError.unresolvedFormat) :=
  c7_unresolved_format_raises cW7 (by decide) (by decide)

/-- C8 counterexample: the claim says every conversion failure is reported with
the column label, the offending value, and the pattern/type in effect.  For a
committed Integer column failing on `abc`, the code prints (and the raised
error carries) only the label and the value — there is no third slot naming the
type in effect — so the report required by the claim is not produced. -/
theorem c8_counterexample_numeric_report :
    (processValue cIntN (.str "abc")).2 =
      some (.convFailure (.noPattern (some "n") (.str "abc"))) ∧
    ¬ specC8ReportComplete (processValue cIntN (.str "abc")).2 cIntN (.str "abc") := by
  have hres : (processValue cIntN (.str "abc")).2 =
      some (.convFailure (.noPattern (some "n") (.str "abc"))) := by decide
  refine ⟨hres, ?_⟩
  rintro ⟨extra, heq, _⟩
  rw [hres] at heq
  simp at heq

/-- C8 (amended): when a committed conversion function raises `ValueError` on a
value, `processValue` re-raises a conversion failure carrying the column label
and the offending (normalized) value — plus the pattern in effect when the
column is temporal, but nothing further (in particular not the data type) when
it is not — and the column keeps only the `stripValue` side effect. -/
theorem c8_amended_failure_report (c : Column) (v : PyObj) (t k : String)
    (ht : c.dataType = some t) (hte : t ≠ "") (hk : c.conversionFunction = some k)
    (hstrip : (stripValue c v).2 ≠ PyObj.none) :
    (∀ v2, t ∈ [DATETIME, DATE, TIME] →
        normalizeByType (some t) (stripValue c v).2 = .ok v2 →
        applyConv2 k v2 c.pattern = .error .valueError →
        processValue c v =
          ((stripValue c v).1,
            some (.convFailure (.withPattern c.headerName v2 c.pattern))))
    ∧ (t ∉ [DATETIME, DATE, TIME] →
        applyConv1 k (stripValue c v).2 = .error .valueError →
        processValue c v =
          ((stripValue c v).1,
            some (.convFailure (.noPattern c.headerName (stripValue c v).2)))) := by
  have hfal : pyFalsyStr (stripValue c v).1.dataType = false := by
    rw [stripValue_dataType, ht]
    simp only [pyFalsyStr]
    cases hemp : t.isEmpty
    · rfl
    · exact absurd ((String.isEmpty_iff t).mp hemp) hte
  have hcf : (stripValue c v).1.conversionFunction = some k := by
    rw [stripValue_conversionFunction, hk]
  have hdt : (stripValue c v).1.dataType = some t := by
    rw [stripValue_dataType, ht]
  constructor
  · intro v2 htemp hn hconv
    unfold processValue
    rw [if_neg hstrip]
    simp only [hfal, Bool.false_eq_true, if_false]
    unfold processValueTail
    simp only [hcf, reduceCtorEq, if_false, hdt, stripValue_pattern, hn, hconv,
      Option.getD_some, stripValue_headerName]
    rw [if_pos htemp]
  · intro htemp hconv
    unfold processValue
    rw [if_neg hstrip]
    simp only [hfal, Bool.false_eq_true, if_false]
    unfold processValueTail
    have hnorm : normalizeByType (some t) (stripValue c v).2 = .ok (stripValue c v).2 := by
      have h1 : ¬ some t = some DATE := by intro hh; apply htemp; simp_all
      have h2 : ¬ some t = some TIME := by intro hh; apply htemp; simp_all
      have h3 : ¬ some t = some DATETIME := by intro hh; apply htemp; simp_all
      simp [normalizeByType, h1, h2, h3]
    simp only [hcf, reduceCtorEq, if_false, hdt, hnorm, hconv, Option.getD_some,
      stripValue_headerName]
    rw [if_neg htemp]

theorem c8_witness :
    processValue cIntN (.str "abc") =
      ((stripValue cIntN (.str "abc")).1,
        some (.convFailure (.noPattern cIntN.headerName (stripValue cIntN (.str "abc")).2))) :=
  (c8_amended_failure_report cIntN (.str "abc") INTEGER INTEGER rfl (by decide) rfl
    (by decide)).2 (by decide) (by decide)

/-- C9: the spec claims `processValue` accepts every scalar cell kind,
including native date/time values, handling them through type inference.  A
native datetime as the first non-absent value instead raises `TypeError`
(outside the two declared fatal kinds): `stripValue` passes it through,
`isNumber` swallows the `int()` failure with its bare except, but `hasTime`
hands the non-string straight to `re.search`; the column is left with no type
inferred at all. -/
theorem c9_native_datetime_first_value_typeerror :
    processValue (mkColumn (some "h") []) (.datetime 2023 4 15 10 30 0 0) =
      (mkColumn (some "h") [], some PyError.typeError) := by
  decide

/-- C10: `stripValue` returns every non-None, non-string input unchanged, with
no absent-mapping and no `charLength` update; whitespace trimming and sentinel
matching run only for strings. -/
theorem c10_stripValue_nonstring_identity (c : Column) (v : PyObj)
    (hstr : ∀ s, v ≠ PyObj.str s) (hnone : v ≠ PyObj.none) :
    stripValue c v = (c, v) := by
  cases v
  case none => exact absurd rfl hnone
  case str s => exact absurd rfl (hstr s)
  all_goals rfl

theorem c10_witness :
    stripValue (mkColumn (some "w10") []) (.int 7) = (mkColumn (some "w10") [], .int 7) :=
  c10_stripValue_nonstring_identity (mkColumn (some "w10") []) (.int 7)
    (fun _ h => PyObj.noConfusion h) (fun h => PyObj.noConfusion h)
